import Mathlib

/-
Verification of the hardware sensor acquisition engine of
Sources/CPcStats/pcstats.c (macOS telemetry sampler).

Modelling conventions used throughout this development:
* C `float`/`double` arithmetic is modelled exactly over `ℚ`; every float
  operation of the source (sums, divisions, comparisons) is translated to the
  corresponding exact rational operation.  Under this convention the
  double-to-float narrowing `(float)d` is the identity on the modelled value.
* Machine integers are modelled as `ℕ`/`ℤ`; where C truncates (e.g. the
  `int16_t` conversion in the sp78 decoder) the truncation is written out
  explicitly (`% 65536` and sign adjustment).
* Raw byte buffers are `List ℕ`, each entry a byte (`uint8_t`, hence < 256 in
  any state reachable from the C code); out-of-range reads use the C buffer
  semantics of `List.getD _ _ 0` (the SMC buffer is zero-initialised).
* Calls into the OS (IOKit, HID, IOReport, dlopen) are oracles supplied by an
  environment record; the mutable globals of the C file become an explicit
  state record threaded through the functions.
-/

namespace PcStats

/-! ### Four-character codes (`str_to_fourcc`, pcstats.c lines 69-74) -/

/-- One byte of a key string, as the C cast `(unsigned char)s[i]`. -/
def fourccByte (s : String) (i : ℕ) : ℕ :=
  (s.data.getD i (Char.ofNat 0)).toNat % 256

/-- `str_to_fourcc`: packs a 4-character key into a big-endian 32-bit code. -/
def str_to_fourcc (s : String) : ℕ :=
  fourccByte s 0 * 16777216 + fourccByte s 1 * 65536 +
    fourccByte s 2 * 256 + fourccByte s 3

/-- `FOURCC_FLT` = "flt " (pcstats.c line 135). -/
def FOURCC_FLT : ℕ := 0x666c7420

/-- `FOURCC_SP78` = "sp78" (pcstats.c line 136). -/
def FOURCC_SP78 : ℕ := 0x73703738

/-- `FOURCC_IOFT` = "ioft" (pcstats.c line 137). -/
def FOURCC_IOFT : ℕ := 0x696f6674

/-! ### IEEE-754 bit-level value maps

`smc_bytes_to_float` reinterprets raw bytes as a 32-bit float (`memcpy` into a
`float`) or a 64-bit double.  Apple Silicon is little-endian, so the memcpy
reads the first 4 (resp. 8) bytes as a little-endian word; the word is then
interpreted by the IEEE-754 single (resp. double) format.  NaN/infinity bit
patterns carry no rational value; they are mapped to 0 here (no claim touches
them, and no reachable SMC reading produces them). -/

/-- The little-endian 32-bit word formed by the first 4 bytes of a buffer
(the `memcpy(&f, data, 4)` of the flt branch). -/
def leWord4 (data : List ℕ) : ℕ :=
  data.getD 0 0 + data.getD 1 0 * 256 + data.getD 2 0 * 65536 +
    data.getD 3 0 * 16777216

/-- The little-endian 64-bit word formed by the first 8 bytes of a buffer
(the `memcpy(&d, data, 8)` of the ioft branch). -/
def leWord8 (data : List ℕ) : ℕ :=
  leWord4 data +
    (data.getD 4 0 + data.getD 5 0 * 256 + data.getD 6 0 * 65536 +
      data.getD 7 0 * 16777216) * 4294967296

/-- The 4 little-endian bytes of a 32-bit word (inverse of `leWord4`). -/
def natToBytesLE4 (n : ℕ) : List ℕ :=
  [n % 256, n / 256 % 256, n / 65536 % 256, n / 16777216 % 256]

/-- Exact rational value of an IEEE-754 single-precision bit pattern
(sign bit 31, 8 exponent bits biased by 127, 23 mantissa bits).
NaN/infinity patterns (exponent field 255) are mapped to 0. -/
def f32ToRat (b : ℕ) : ℚ :=
  (if b / 2147483648 % 2 = 1 then -1 else 1) *
    (if b / 8388608 % 256 = 255 then 0
     else if b / 8388608 % 256 = 0 then ((b % 8388608 : ℕ) : ℚ) / 2 ^ 149
     else ((8388608 + b % 8388608 : ℕ) : ℚ) * 2 ^ (b / 8388608 % 256) / 2 ^ 150)

/-- Exact rational value of an IEEE-754 double-precision bit pattern
(sign bit 63, 11 exponent bits biased by 1023, 52 mantissa bits).
NaN/infinity patterns (exponent field 2047) are mapped to 0. -/
def f64ToRat (b : ℕ) : ℚ :=
  (if b / 9223372036854775808 % 2 = 1 then -1 else 1) *
    (if b / 4503599627370496 % 2048 = 2047 then 0
     else if b / 4503599627370496 % 2048 = 0 then
       ((b % 4503599627370496 : ℕ) : ℚ) / 2 ^ 1074
     else ((4503599627370496 + b % 4503599627370496 : ℕ) : ℚ) *
       2 ^ (b / 4503599627370496 % 2048) / 2 ^ 1075)

/-- A finite (neither NaN nor infinite) 32-bit float, given by its three bit
fields: sign (1 bit), biased exponent (< 255, so finite), mantissa (23 bits). -/
structure FiniteF32 where
  sign : ℕ
  ex : ℕ
  mant : ℕ
  hs : sign < 2
  he : ex < 255
  hm : mant < 8388608

/-- The 32-bit pattern of a finite float. -/
def FiniteF32.bits (f : FiniteF32) : ℕ :=
  f.sign * 2147483648 + f.ex * 8388608 + f.mant

/-- The exact rational value of a finite float, defined from its fields. -/
def FiniteF32.val (f : FiniteF32) : ℚ :=
  (if f.sign = 1 then -1 else 1) *
    (if f.ex = 0 then (f.mant : ℚ) / 2 ^ 149
     else ((8388608 + f.mant : ℕ) : ℚ) * 2 ^ f.ex / 2 ^ 150)

/-- The C `int16_t` conversion: truncate to 16 bits and sign-extend.  This is
the value of `raw` in the sp78 branch, where the C computes
`(int16_t)(((int16_t)data[0] << 8) | data[1])` (bytes are `uint8_t`, so the
or of the disjoint bit ranges equals `data[0]*256 + data[1]`). -/
def toSigned16 (n : ℕ) : ℤ :=
  if n % 65536 < 32768 then (n % 65536 : ℤ) else (n % 65536 : ℤ) - 65536

/-! ### The decoder (`smc_bytes_to_float`, pcstats.c lines 140-174) -/

/-- `smc_bytes_to_float`: decode an SMC raw value (bytes, byte length, type
tag) into a float.  Branches in source order: empty, "flt ", "sp78", "ioft",
1-byte unsigned, big-endian 2-byte unsigned, default 0.  Per the conventions
above, the ioft branch's `(float)d` narrowing is the identity on the exact
modelled value. -/
def smc_bytes_to_float (data : List ℕ) (size ty : ℕ) : ℚ :=
  if size = 0 then 0
  else if ty = FOURCC_FLT ∧ 4 ≤ size then f32ToRat (leWord4 data)
  else if ty = FOURCC_SP78 ∧ 2 ≤ size then
    (toSigned16 (data.getD 0 0 * 256 + data.getD 1 0) : ℚ) / 256
  else if ty = FOURCC_IOFT ∧ 8 ≤ size then f64ToRat (leWord8 data)
  else if size = 1 then (data.getD 0 0 : ℚ)
  else if size = 2 then ((data.getD 0 0 * 256 + data.getD 1 0 : ℕ) : ℚ)
  else 0

/-- A concrete finite float (value 1/2, bit pattern 0x3F000000), used to
exercise the decoder round-trip at a specific input. -/
def fHalf : FiniteF32 := ⟨0, 126, 0, by omega, by omega, by omega⟩

/-! ### SMC protocol client, key cache and temperature aggregation
(pcstats.c lines 66-349)

The IOKit exchanges of `smc_read` are modelled by an oracle `SMCEnv`: the
reply to a command-9 (key-info) request for a fourcc, and the reply to a
command-5 (value) request.  `none` covers every failure mode of `smc_read`
(kernel error, result 132 "key not found", any non-zero result).  The mutable
globals (`smc_conn`, the three domain caches and their counts, and the
`smc_cache_initialized` flag) form the state `SMCState`. -/

/-- `SMCKeyDataKeyInfo` (pcstats.c lines 48-52). -/
structure SMCKeyDataKeyInfo where
  data_size : ℕ
  data_type : ℕ
  data_attributes : ℕ
deriving DecidableEq

/-- One cached key: pre-computed fourcc plus its key info
(`CachedSMCKey`, pcstats.c lines 182-185). -/
structure CachedSMCKey where
  key_fourcc : ℕ
  key_info : SMCKeyDataKeyInfo
deriving DecidableEq

/-- Oracle for the SMC IOKit channel. -/
structure SMCEnv where
  open_ok : Bool
  keyInfo : ℕ → Option SMCKeyDataKeyInfo
  keyBytes : ℕ → Option (List ℕ)

/-- The SMC globals of pcstats.c: connection handle (as a flag), the three
domain caches, and the one-shot initialisation flag. -/
structure SMCState where
  conn : Bool
  cpu_keys : List CachedSMCKey
  gpu_keys : List CachedSMCKey
  board_keys : List CachedSMCKey
  inited : Bool
deriving DecidableEq

/-- `smc_open` (pcstats.c lines 77-102): idempotent open; returns success and
the possibly updated connection state. -/
def smc_open (env : SMCEnv) (st : SMCState) : Bool × SMCState :=
  if st.conn then (true, st)
  else if env.open_ok then (true, { st with conn := true })
  else (false, st)

/-- `smc_read_key_info` (pcstats.c lines 120-131): command-9 request; fails
when the connection is not open (`smc_read` checks `smc_conn`). -/
def smc_read_key_info (env : SMCEnv) (st : SMCState) (fourcc : ℕ) :
    Option SMCKeyDataKeyInfo :=
  if st.conn then env.keyInfo fourcc else none

/-- `smc_read_key` (pcstats.c lines 196-211): uncached read of one key —
metadata query, rejection of byte lengths over 32, command-5 value fetch,
decode. -/
def smc_read_key (env : SMCEnv) (st : SMCState) (key : String) : ℚ :=
  match smc_read_key_info env st (str_to_fourcc key) with
  | none => 0
  | some info =>
    if 32 < info.data_size then 0
    else
      match (if st.conn then env.keyBytes (str_to_fourcc key) else none) with
      | none => 0
      | some bytes => smc_bytes_to_float bytes info.data_size info.data_type

/-- `smc_read_temp_cached` (pcstats.c lines 214-225): command-5 value fetch
using the cached key info (no metadata round-trip, no size check), decode. -/
def smc_read_temp_cached (env : SMCEnv) (st : SMCState) (k : CachedSMCKey) : ℚ :=
  match (if st.conn then env.keyBytes k.key_fourcc else none) with
  | none => 0
  | some bytes =>
    smc_bytes_to_float bytes k.key_info.data_size k.key_info.data_type

/-- The CPU candidate key list of `smc_init_cache` (pcstats.c lines 233-239). -/
def cpu_key_names : List String :=
  ["Tp01", "Tp02", "Tp03", "Tp04", "Tp05", "Tp06", "Tp07", "Tp08",
   "Tp09", "Tp0A", "Tp0B", "Tp0C", "Tp0D", "Tp0E", "Tp0F", "Tp0G",
   "Te01", "Te02", "Te03", "Te04", "Te05", "Te06", "Te07", "Te08",
   "Tc0c", "Tc1c", "Tc2c", "Tc3c"]

/-- The GPU candidate key list (pcstats.c lines 241-244). -/
def gpu_key_names : List String :=
  ["Tg0f", "Tg0j", "Tg0D", "Tg0d", "Tg05", "Tg0P", "Tg0p"]

/-- The board candidate key list (pcstats.c lines 247-253). -/
def board_key_names : List String :=
  ["Tm0P", "Tm1P", "Tm2P", "Ts0P", "Ts1P", "Ts2P", "TM0P", "TM1P", "Tw0P"]

/-- One probe loop of `smc_init_cache`: walk the candidate names, keep every
key whose metadata query succeeds with `data_size > 0`, appending to the list
built so far, and stop as soon as the cache holds `MAX_CACHED_KEYS = 32`
entries (the loop condition re-checks the count every iteration). -/
def probe_domain (env : SMCEnv) (st : SMCState) :
    List String → List CachedSMCKey → List CachedSMCKey
  | [], acc => acc
  | n :: rest, acc =>
    if acc.length < 32 then
      match smc_read_key_info env st (str_to_fourcc n) with
      | some info =>
        if 0 < info.data_size then
          probe_domain env st rest (acc ++ [⟨str_to_fourcc n, info⟩])
        else probe_domain env st rest acc
      | none => probe_domain env st rest acc
    else acc

/-- `smc_init_cache` (pcstats.c lines 228-286): guarded by the one-shot flag;
returns unchanged (and without setting the flag) when the open fails; else
probes the three candidate lists and sets the flag. -/
def smc_init_cache (env : SMCEnv) (st : SMCState) : SMCState :=
  if st.inited then st
  else
    let p := smc_open env st
    if ¬p.1 then p.2
    else
      { p.2 with
        cpu_keys := probe_domain env p.2 cpu_key_names p.2.cpu_keys
        gpu_keys := probe_domain env p.2 gpu_key_names p.2.gpu_keys
        board_keys := probe_domain env p.2 board_key_names p.2.board_keys
        inited := true }

/-- The accumulation loop shared by the domain aggregations: running sum and
count of the readings strictly inside the window `(lo, hi)` (the
`if (t > lo && t < hi) { sum += t; count++; }` loops).  Addition is
commutative, so the right-recursion computes the same sum as the C loop. -/
def sum_count_window (lo hi : ℚ) : List ℚ → ℚ × ℕ
  | [] => (0, 0)
  | t :: rest =>
    let p := sum_count_window lo hi rest
    if lo < t ∧ t < hi then (p.1 + t, p.2 + 1) else p

/-- The reported mean of one domain: `sum / count` when any reading survived
the window, else 0 (the `count > 0 ? sum / count : 0` of the source). -/
def smc_domain_mean (lo hi : ℚ) (ts : List ℚ) : ℚ :=
  if 0 < (sum_count_window lo hi ts).2 then
    (sum_count_window lo hi ts).1 / ((sum_count_window lo hi ts).2 : ℚ)
  else 0

/-- `smc_get_temperatures` (pcstats.c lines 289-325): lazily initialise the
cache, bail out to (0,0) without a connection, else read every cached CPU/GPU
key and report the mean of the readings inside (10, 130) per domain. -/
def smc_get_temperatures (env : SMCEnv) (st : SMCState) :
    (ℚ × ℚ) × SMCState :=
  let st1 := if ¬st.inited then smc_init_cache env st else st
  if ¬st1.conn then ((0, 0), st1)
  else
    ((smc_domain_mean 10 130 (st1.cpu_keys.map (smc_read_temp_cached env st1)),
      smc_domain_mean 10 130 (st1.gpu_keys.map (smc_read_temp_cached env st1))),
     st1)

/-- `smc_get_board_temperature` (pcstats.c lines 328-349): same shape with
window (10, 100) and an extra empty-cache bail-out. -/
def smc_get_board_temperature (env : SMCEnv) (st : SMCState) : ℚ × SMCState :=
  let st1 := if ¬st.inited then smc_init_cache env st else st
  if ¬st1.conn ∨ st1.board_keys.length = 0 then (0, st1)
  else
    (smc_domain_mean 10 100
      (st1.board_keys.map (smc_read_temp_cached env st1)), st1)

/-! ### HID fallback source (`hid_get_temperatures`, pcstats.c lines 405-477) -/

/-- Whether `pat` begins the character list (helper for the `strstr` model). -/
def leadsWith : List Char → List Char → Bool
  | [], _ => true
  | _ :: _, [] => false
  | p :: ps, c :: cs => p = c && leadsWith ps cs

/-- Whether `pat` occurs inside the character list (model of C `strstr`). -/
def hasSub (pat : List Char) : List Char → Bool
  | [] => leadsWith pat []
  | c :: rest => leadsWith pat (c :: rest) || hasSub pat rest

/-- `strstr(hay, pat) != NULL` on strings. -/
def strHas (hay pat : String) : Bool := hasSub pat.data hay.data

/-- One enumerated HID service: its `Product` property (may be absent, the C
skips such services) and its temperature event value (may be absent). -/
structure HidService where
  product : Option String
  temp : Option ℚ

/-- Oracle for the HID event system: whether the client could be created, and
the service list (none models a NULL services array). -/
structure HidEnv where
  ok : Bool
  services : Option (List HidService)

/-- `hid_get_temperatures`: enumerate services, keep readings with
`10 ≤ t ≤ 130` (the C discards `t < 10 || t > 130`), classify by name into
the CPU bucket (`"ACC MTR Temp"` or `"CPU"` substring) else the GPU bucket
(`"GPU MTR Temp"` or `"GPU"` substring), and report per-bucket means. -/
def hid_get_temperatures (env : HidEnv) : ℚ × ℚ :=
  if ¬env.ok then (0, 0)
  else
    match env.services with
    | none => (0, 0)
    | some svcs =>
      let acc := svcs.foldl
        (fun (a : (ℚ × ℕ) × (ℚ × ℕ)) svc =>
          match svc.product with
          | none => a
          | some name =>
            match svc.temp with
            | none => a
            | some t =>
              if t < 10 ∨ 130 < t then a
              else if strHas name "ACC MTR Temp" ∨ strHas name "CPU" then
                ((a.1.1 + t, a.1.2 + 1), a.2)
              else if strHas name "GPU MTR Temp" ∨ strHas name "GPU" then
                (a.1, (a.2.1 + t, a.2.2 + 1))
              else a)
        ((0, 0), (0, 0))
      (if 0 < acc.1.2 then acc.1.1 / (acc.1.2 : ℚ) else 0,
       if 0 < acc.2.2 then acc.2.1 / (acc.2.2 : ℚ) else 0)

/-- `get_apple_silicon_temps` (pcstats.c lines 483-491): SMC first; the HID
fallback runs only when the SMC produced 0 for both domains. -/
def get_apple_silicon_temps (senv : SMCEnv) (henv : HidEnv) (st : SMCState) :
    (ℚ × ℚ) × SMCState :=
  let r := smc_get_temperatures senv st
  if r.1.1 = 0 ∧ r.1.2 = 0 then (hid_get_temperatures henv, r.2)
  else r

/-! ### IOReport power/frequency sampler (pcstats.c lines 498-857)

The CoreFoundation plumbing (channel dictionaries, subscriptions, sample
dictionaries) is opaque to this file's logic; the oracle `IOREnv` supplies the
outcome of each external call: whether `dlopen` / symbol lookup succeed,
whether any channel group and a subscription could be obtained, the raw
`voltage-states9` bytes of the pmgr device, whether `IOReportCreateSamples`
returns a sample, the clock, and the decoded delta channel list (covering
both `IOReportCreateSamplesDelta` and the `IOReportChannels` array lookup —
`none` models either returning NULL).  Missing optional function pointers for
the per-channel accessors are assumed present once the essential-symbol check
passed (they come from the same library). -/

/-- One performance state of a residency channel: its name and cumulative
residency tick count (`int64_t`). -/
structure PerfState where
  name : String
  res : ℤ
deriving DecidableEq

/-- One channel of a delta sample, with the fields the source reads: group,
channel name, unit label, simple integer value, and residency states. -/
structure IORChannel where
  group : String
  name : String
  unit : String
  value : ℤ
  states : List PerfState

/-- The IOReport globals: the `ior_lib_loaded` flag, the `ior_handle`
(as a flag), the `ior_initialized` flag, whether `ior_prev_sample` is set,
`ior_prev_time_ms`, and the loaded GPU frequency table
(`gpu_freqs` / `num_gpu_freqs`). -/
structure IORState where
  lib_loaded : Bool
  handle : Bool
  inited : Bool
  has_prev : Bool
  prev_time_ms : ℕ
  gpu_freqs : List ℕ
deriving DecidableEq

/-- Oracle for the IOReport library and the pmgr registry entry. -/
structure IOREnv where
  dlopen_ok : Bool
  syms_ok : Bool
  channels_ok : Bool
  sub_ok : Bool
  volt9 : Option (List ℕ)
  sample_ok : Bool
  now_ms : ℕ
  delta : Option (List IORChannel)

/-- The cached derived metrics (`cached_cpu_power`, `cached_gpu_power`,
`cached_gpu_freq`, `cached_gpu_load`, pcstats.c lines 577-580). -/
structure PowerVals where
  cpu_power : ℚ
  gpu_power : ℚ
  gpu_freq : ℚ
  gpu_load : ℚ
deriving DecidableEq

/-- `ior_load_framework` (pcstats.c lines 537-567): the dlopen and essential
symbol lookup happen at most once; later calls only re-check the handle. -/
def ior_load_framework (env : IOREnv) (st : IORState) : Bool × IORState :=
  if st.lib_loaded then (st.handle, st)
  else
    let st1 := { st with lib_loaded := true, handle := env.dlopen_ok }
    if ¬env.dlopen_ok then (false, st1)
    else (env.syms_ok, st1)

/-- The `voltage-states9` parser of `ior_load_gpu_freqs` (pcstats.c lines
620-635): 8-byte records, little-endian 32-bit frequency in Hz first, keep
the MHz value when positive. -/
def parse_freq_pairs : List ℕ → List ℕ
  | b0 :: b1 :: b2 :: b3 :: _ :: _ :: _ :: _ :: rest =>
    let mhz := (b0 + b1 * 256 + b2 * 65536 + b3 * 16777216) / 1000000
    if 0 < mhz then mhz :: parse_freq_pairs rest else parse_freq_pairs rest
  | _ => []

/-- `ior_load_gpu_freqs` (pcstats.c lines 601-642): load at most once, cap at
`MAX_GPU_FREQS = 32` entries (the loop keeps appending until full, which
equals taking the first 32 parsed values). -/
def ior_load_gpu_freqs (env : IOREnv) (st : IORState) : IORState :=
  if 0 < st.gpu_freqs.length then st
  else
    match env.volt9 with
    | none => st
    | some bytes => { st with gpu_freqs := (parse_freq_pairs bytes).take 32 }

/-- `ior_init` (pcstats.c lines 645-695): one-shot; fails (without setting the
flag) when the framework cannot load, no channel group is available, or the
subscription cannot be created; on success loads the GPU frequency table and
sets the flag. -/
def ior_init (env : IOREnv) (st : IORState) : Bool × IORState :=
  if st.inited then (true, st)
  else
    let p := ior_load_framework env st
    if ¬p.1 then (false, p.2)
    else if ¬env.channels_ok then (false, p.2)
    else if ¬env.sub_ok then (false, p.2)
    else (true, { ior_load_gpu_freqs env p.2 with inited := true })

/-- `energy_to_watts` (pcstats.c lines 699-712): cumulative energy over the
window, scaled by the declared unit. -/
def energy_to_watts (energy : ℤ) (unit : String) (duration_ms : ℕ) : ℚ :=
  if duration_ms = 0 then 0
  else
    let jps : ℚ := (energy : ℚ) / ((duration_ms : ℚ) / 1000)
    if unit = "nJ" then jps / 1000000000
    else if unit = "uJ" then jps / 1000000
    else if unit = "mJ" then jps / 1000
    else 0

/-- Whether a performance state counts as active (its name is none of
IDLE/OFF/DOWN, pcstats.c line 733). -/
def stateIsActive (s : PerfState) : Bool :=
  ¬(s.name = "IDLE" ∨ s.name = "OFF" ∨ s.name = "DOWN")

/-- The offset search of `calc_gpu_freq_from_residency` (pcstats.c lines
727-738): index of the first active-named state; 0 when no state qualifies
(the C leaves `offset = 0` in that case). -/
def activeOffset (states : List PerfState) : ℕ :=
  match states.findIdx? stateIsActive with
  | some i => i
  | none => 0

/-- The summation loop of `calc_gpu_freq_from_residency` (pcstats.c lines
741-756), over the states list with running index `i`: total residency,
active residency (indices ≥ offset), and the frequency-weighted sum (indices
with `i - offset` inside the table).  Addition is commutative, so the
right-recursion computes the same three sums as the C loop. -/
def residency_scan (freqs : List ℕ) (offset : ℕ) :
    ℕ → List PerfState → ℤ × ℤ × ℚ
  | _, [] => (0, 0, 0)
  | i, s :: rest =>
    let p := residency_scan freqs offset (i + 1) rest
    let t := p.1 + s.res
    if offset ≤ i then
      (t, p.2.1 + s.res,
       if i - offset < freqs.length then
         p.2.2 + (s.res : ℚ) * (freqs.getD (i - offset) 0 : ℚ)
       else p.2.2)
    else (t, p.2.1, p.2.2)

/-- `calc_gpu_freq_from_residency` (pcstats.c lines 715-762), with the global
frequency table passed explicitly.  Returns `(freq_mhz, load_pct)`; both stay
0 when the table is empty, there are no states, or the active/total residency
guard fails.  The function-pointer NULL checks of the source are outside this
model (the pointers come with the essential symbols). -/
def calc_gpu_freq_from_residency (freqs : List ℕ) (states : List PerfState) :
    ℚ × ℚ :=
  if freqs.length = 0 then (0, 0)
  else if states.length = 0 then (0, 0)
  else
    let offset := activeOffset states
    let p := residency_scan freqs offset 0 states
    if 0 < p.2.1 ∧ 0 < p.1 then
      (p.2.2 / (p.2.1 : ℚ), (p.2.1 : ℚ) / (p.1 : ℚ) * 100)
    else (0, 0)

/-- The per-channel dispatch of `ior_sample`'s delta loop (pcstats.c lines
787-823): energy channels accumulate into the power sums ("CPU Energy" by
substring, "GPU Energy" by exact name), the "GPUPH" channel of "GPU Stats"
overwrites frequency and load via the residency calculator.  A left fold, as
the C loop runs front to back. -/
def process_channels (freqs : List ℕ) (dur : ℕ) (chans : List IORChannel) :
    PowerVals :=
  chans.foldl
    (fun a ch =>
      if ch.group = "Energy Model" then
        if strHas ch.name "CPU Energy" then
          { a with cpu_power := a.cpu_power + energy_to_watts ch.value ch.unit dur }
        else if ch.name = "GPU Energy" then
          { a with gpu_power := a.gpu_power + energy_to_watts ch.value ch.unit dur }
        else a
      else if ch.group = "GPU Stats" ∧ ch.name = "GPUPH" then
        let r := calc_gpu_freq_from_residency freqs ch.states
        { a with gpu_freq := r.1, gpu_load := r.2 }
      else a)
    ⟨0, 0, 0, 0⟩

/-! ### Global state and the snapshot aggregator (pcstats.c lines 859-1219) -/

/-- The remaining mutable globals that the claims touch: SMC state, IOReport
state, the cached derived metrics, the cached temperatures, and the
`use_native_temps` flag set by `pcstats_enable_temps`. -/
structure GState where
  smc : SMCState
  ior : IORState
  power : PowerVals
  cached_cpu_temp : ℚ
  cached_gpu_temp : ℚ
  use_native_temps : Bool

/-- `ior_sample` (pcstats.c lines 765-840): initialise on demand (returning
untouched metrics on failure), fetch a sample, and — when a previous sample
exists — compute the delta over the elapsed window floored at 10 ms and
replace the cached metrics; finally store the sample as the new baseline. -/
def ior_sample (env : IOREnv) (g : GState) : GState :=
  let q := if ¬g.ior.inited then ior_init env g.ior else (true, g.ior)
  let g1 := { g with ior := q.2 }
  if ¬q.1 then g1
  else if ¬env.sample_ok then g1
  else
    let g2 :=
      if g1.ior.has_prev ∧ 0 < g1.ior.prev_time_ms then
        let d := env.now_ms - g1.ior.prev_time_ms
        let dur := if d < 10 then 10 else d
        match env.delta with
        | none => g1
        | some chans =>
          { g1 with power := process_channels g1.ior.gpu_freqs dur chans }
      else g1
    { g2 with
      ior := { g2.ior with has_prev := true, prev_time_ms := env.now_ms } }

/-- `Motherboard` (pcstats.h). -/
structure Motherboard where
  temp : ℚ
  rpm : ℚ
  tick : ℤ
deriving DecidableEq

/-- `CPU` (pcstats.h). -/
structure CPU where
  temp : ℚ
  tempMax : ℚ
  load : ℚ
  consume : ℚ
  tjMax : ℤ
  core1DistanceToTjMax : ℚ
  core1Temp : ℚ
deriving DecidableEq

/-- `GPU` (pcstats.h). -/
structure GPU where
  temp : ℚ
  tempMax : ℚ
  load : ℚ
  consume : ℚ
  rpm : ℚ
  memUsed : ℚ
  memTotal : ℚ
  freq : ℚ
deriving DecidableEq

/-- `Storage` (pcstats.h). -/
structure Storage where
  temp : ℚ
  read : ℚ
  write : ℚ
  percent : ℚ
deriving DecidableEq

/-- `Memory` (pcstats.h). -/
structure Memory where
  used : ℚ
  avail : ℚ
  percent : ℚ
deriving DecidableEq

/-- `Network` (pcstats.h). -/
structure Network where
  up : ℚ
  down : ℚ
deriving DecidableEq

/-- `PcStatus` (pcstats.h). -/
structure PcStatus where
  board : Motherboard
  cpu : CPU
  gpu : GPU
  storage : Storage
  memory : Memory
  network : Network
  cmd : ℤ
  time_stamp : ℤ
deriving DecidableEq

/-- The fan key string `F%dAc` of `get_fan_info`. -/
def fanKeyAc (i : ℕ) : String := "F" ++ toString i ++ "Ac"

/-- The fan probe loop of `get_fan_info` (pcstats.c lines 363-385): read
`F0Ac`, `F1Ac`, … while positive, stop at the first non-positive reading.
Only the actual-RPM values flow into a snapshot; the min/max reads change no
modelled state and are omitted. -/
def fan_scan (env : SMCEnv) (st : SMCState) : List ℕ → List ℚ
  | [] => []
  | i :: rest =>
    let rpm := smc_read_key env st (fanKeyAc i)
    if 0 < rpm then rpm :: fan_scan env st rest else []

/-- `get_fan_info` (pcstats.c lines 352-386): opens the SMC (the one
connection-mutating step of the fan path), then probes up to `MAX_FANS = 4`
fans; returns the RPM list (its length is `fans->count`). -/
def get_fan_info (env : SMCEnv) (st : SMCState) : List ℚ × SMCState :=
  let p := smc_open env st
  if ¬p.1 then ([], p.2)
  else (fan_scan env p.2 [0, 1, 2, 3], p.2)

/-- The environment of one `collect_stats` cycle: the three sensor oracles,
the wall clock (`time(NULL)` and `tm_gmtoff`), and the results of the simple
scalar collectors that are outside the core (CPU ticks, uptime, disk, memory,
network). -/
structure CollectEnv where
  smc : SMCEnv
  hid : HidEnv
  ior : IOREnv
  now : ℤ
  gmtoff : ℤ
  cpu_load : ℚ
  uptime : ℤ
  storage : Storage
  memory : Memory
  network : Network

/-- `update_temperatures_native` (pcstats.c lines 1042-1044). -/
def update_temperatures_native (senv : SMCEnv) (henv : HidEnv) (g : GState) :
    GState :=
  let r := get_apple_silicon_temps senv henv g.smc
  { g with smc := r.2, cached_cpu_temp := r.1.1, cached_gpu_temp := r.1.2 }

/-- `collect_stats` (pcstats.c lines 1170-1219): timestamp, optional
temperature/power refresh (gated on `use_native_temps`), fan info, board
temperature, and assembly of the snapshot. -/
def collect_stats (env : CollectEnv) (g : GState) : PcStatus × GState :=
  let ts := env.now + env.gmtoff - 3600
  let g1 :=
    if g.use_native_temps then
      ior_sample env.ior (update_temperatures_native env.smc env.hid g)
    else g
  let fans := get_fan_info env.smc g1.smc
  let brd := smc_get_board_temperature env.smc fans.2
  ({ board := ⟨brd.1, fans.1.getD 0 0, env.uptime⟩
     cpu := ⟨g1.cached_cpu_temp, 100, env.cpu_load, g1.power.cpu_power, 100,
       100 - g1.cached_cpu_temp, g1.cached_cpu_temp⟩
     gpu := ⟨g1.cached_gpu_temp, 100, g1.power.gpu_load, g1.power.gpu_power,
       fans.1.getD 1 0, 0, 0, g1.power.gpu_freq⟩
     storage := env.storage
     memory := env.memory
     network := env.network
     cmd := 1230
     time_stamp := ts },
   { g1 with smc := brd.2 })

/-! ### JSON serialisation (`build_json`, pcstats.c lines 1057-1081)

The model produces the untruncated text (the `snprintf` output for any
sufficiently large buffer).  `%.1f` is modelled by rounding the exact value
to tenths. -/

/-- Model of `%.1f`: one digit after the decimal point. -/
def fmt_f1 (q : ℚ) : String :=
  let n : ℤ := round (q * 10)
  (if n < 0 then "-" else "") ++
    toString (n.natAbs / 10) ++ "." ++ toString (n.natAbs % 10)

/-- Everything `build_json` emits before the fixed `"cmd":1230` pair, in the
order of the format string. -/
def json_head (s : PcStatus) : String :=
  "\x7b\"board\":\x7b\"temp\":" ++ fmt_f1 s.board.temp ++
  ",\"rpm\":" ++ fmt_f1 s.board.rpm ++
  ",\"tick\":" ++ toString s.board.tick ++
  "\x7d,\"cpu\":\x7b\"temp\":" ++ fmt_f1 s.cpu.temp ++
  ",\"tempMax\":" ++ fmt_f1 s.cpu.tempMax ++
  ",\"load\":" ++ fmt_f1 s.cpu.load ++
  ",\"consume\":" ++ fmt_f1 s.cpu.consume ++
  ",\"tjMax\":" ++ toString s.cpu.tjMax ++
  ",\"core1DistanceToTjMax\":" ++ fmt_f1 s.cpu.core1DistanceToTjMax ++
  ",\"core1Temp\":" ++ fmt_f1 s.cpu.core1Temp ++
  "\x7d,\"gpu\":\x7b\"temp\":" ++ fmt_f1 s.gpu.temp ++
  ",\"tempMax\":" ++ fmt_f1 s.gpu.tempMax ++
  ",\"load\":" ++ fmt_f1 s.gpu.load ++
  ",\"consume\":" ++ fmt_f1 s.gpu.consume ++
  ",\"rpm\":" ++ fmt_f1 s.gpu.rpm ++
  ",\"memUsed\":" ++ fmt_f1 s.gpu.memUsed ++
  ",\"memTotal\":" ++ fmt_f1 s.gpu.memTotal ++
  ",\"freq\":" ++ fmt_f1 s.gpu.freq ++
  "\x7d,\"storage\":\x7b\"temp\":" ++ fmt_f1 s.storage.temp ++
  ",\"read\":" ++ fmt_f1 s.storage.read ++
  ",\"write\":" ++ fmt_f1 s.storage.write ++
  ",\"percent\":" ++ fmt_f1 s.storage.percent ++
  "\x7d,\"memory\":\x7b\"used\":" ++ fmt_f1 s.memory.used ++
  ",\"avail\":" ++ fmt_f1 s.memory.avail ++
  ",\"percent\":" ++ fmt_f1 s.memory.percent ++
  "\x7d,\"network\":\x7b\"up\":" ++ fmt_f1 s.network.up ++
  ",\"down\":" ++ fmt_f1 s.network.down ++
  "\x7d,"

/-- `build_json`: the serialised snapshot text.  The `cmd` and `time` pairs
come last; the emitted `"cmd":1230` is a literal of the format string — the
`status->cmd` field is not among the `snprintf` arguments. -/
def build_json (s : PcStatus) : String :=
  json_head s ++ ("\"cmd\":1230," ++ ("\"time\":" ++
    (toString s.time_stamp ++ "\x7d")))

/-! ### Concrete fixtures used by counterexamples and witnesses -/

/-- The empty initial SMC state (all globals zero, as at process start). -/
def st0 : SMCState := ⟨false, [], [], [], false⟩

/-- An SMC oracle on which the open always fails. -/
def env6a : SMCEnv := ⟨false, fun _ => none, fun _ => none⟩

/-- An SMC oracle on which the open succeeds and every key probes with a
2-byte sp78 payload of value 50. -/
def env6b : SMCEnv :=
  ⟨true, fun _ => some ⟨2, 0x73703738, 0⟩, fun _ => some [50, 0]⟩

/-- An SMC oracle on which only "Tp01" exists, reporting a 100-byte length
(over the 32-byte cap) with an sp78 tag and a payload decoding to 1. -/
def env5 : SMCEnv :=
  ⟨true,
   fun k => if k = str_to_fourcc "Tp01" then some ⟨100, 0x73703738, 0⟩ else none,
   fun _ => some [1, 0]⟩

/-- An already-initialised SMC state holding one cached CPU key. -/
def stW : SMCState :=
  ⟨true, [⟨str_to_fourcc "Tp01", ⟨2, 0x73703738, 0⟩⟩], [], [], true⟩

/-- Two HID oracles differing in their service lists. -/
def hidA : HidEnv := ⟨true, some [⟨some "CPU MTR Temp Sensor", some 99⟩]⟩

/-- Second HID oracle, with a different reading. -/
def hidB : HidEnv := ⟨true, some [⟨some "GPU MTR Temp Sensor", some 77⟩]⟩

/-- A trivial IOReport oracle on which the library is absent. -/
def iorEnv0 : IOREnv := ⟨false, false, false, false, none, false, 0, none⟩

/-- The IOReport state after a failed library load (load attempted, handle
NULL). -/
def iorStFailed : IORState := ⟨true, false, false, false, 0, []⟩

/-- The all-zero initial global state with temperature reporting disabled. -/
def gstate0 : GState := ⟨st0, ⟨false, false, false, false, 0, []⟩, ⟨0, 0, 0, 0⟩, 0, 0, false⟩

/-- A collect environment where every sensor source is unavailable and every
simple collector returns zero, at UTC time 0 with UTC offset 0. -/
def cenv0 : CollectEnv :=
  ⟨env6a, ⟨false, none⟩, iorEnv0, 0, 0, 0, 0, ⟨0, 0, 0, 0⟩, ⟨0, 0, 0⟩, ⟨0, 0⟩⟩

/-- The residency states of the spec's worked example: an idle state with
residency 10, then three active states with residencies 5, 10, 15. -/
def resStates0 : List PerfState :=
  [⟨"IDLE", 10⟩, ⟨"P1", 5⟩, ⟨"P2", 10⟩, ⟨"P3", 15⟩]

/-! ## Supporting lemmas for the decoder -/

theorem FiniteF32.bits_lt (f : FiniteF32) : f.bits < 4294967296 := by
  have hs := f.hs; have he := f.he; have hm := f.hm
  unfold FiniteF32.bits; omega

theorem leWord4_natToBytesLE4 {n : ℕ} (h : n < 4294967296) :
    leWord4 (natToBytesLE4 n) = n := by
  simp only [leWord4, natToBytesLE4, List.getD_cons_zero, List.getD_cons_succ]
  omega

theorem f32ToRat_bits (f : FiniteF32) : f32ToRat f.bits = f.val := by
  have hs := f.hs; have he := f.he; have hm := f.hm
  have h1 : f.bits / 2147483648 % 2 = f.sign := by unfold FiniteF32.bits; omega
  have h2 : f.bits / 8388608 % 256 = f.ex := by unfold FiniteF32.bits; omega
  have h3 : f.bits % 8388608 = f.mant := by unfold FiniteF32.bits; omega
  have hne : ¬ f.ex = 255 := by omega
  unfold f32ToRat FiniteF32.val
  rw [h1, h2, h3, if_neg hne]

/-- C1: the decoder is a pure total function applying the rules in priority
order: "flt " with length ≥ 4 reinterprets the first 4 bytes as an IEEE-754
single bit-identically (round-trip on every finite float); "sp78" with
length ≥ 2 is big-endian signed 16-bit fixed point over 256 ({0x01,0x00} ↦ 1,
{0xFF,0x00} ↦ -1); "ioft" with length ≥ 8 reads a 64-bit double narrowed to
float (general rule stated over the bit-level value map); otherwise length 1
gives the unsigned byte, length 2 the big-endian unsigned 16-bit value, and
every remaining input (including length 0) gives 0. -/
theorem C1_decoder_spec :
    (∀ f : FiniteF32,
        smc_bytes_to_float (natToBytesLE4 f.bits) 4 FOURCC_FLT = f.val) ∧
    smc_bytes_to_float [1, 0] 2 FOURCC_SP78 = 1 ∧
    smc_bytes_to_float [255, 0] 2 FOURCC_SP78 = -1 ∧
    (∀ data size, 2 ≤ size →
        smc_bytes_to_float data size FOURCC_SP78 =
          (toSigned16 (data.getD 0 0 * 256 + data.getD 1 0) : ℚ) / 256) ∧
    (∀ data size, 8 ≤ size →
        smc_bytes_to_float data size FOURCC_IOFT = f64ToRat (leWord8 data)) ∧
    (∀ data ty, smc_bytes_to_float data 0 ty = 0) ∧
    (∀ data ty, smc_bytes_to_float data 1 ty = (data.getD 0 0 : ℚ)) ∧
    (∀ data ty, ty ≠ FOURCC_SP78 →
        smc_bytes_to_float data 2 ty =
          ((data.getD 0 0 * 256 + data.getD 1 0 : ℕ) : ℚ)) ∧
    (∀ data size ty, ¬(ty = FOURCC_FLT ∧ 4 ≤ size) →
        ¬(ty = FOURCC_SP78 ∧ 2 ≤ size) → ¬(ty = FOURCC_IOFT ∧ 8 ≤ size) →
        size ≠ 1 → size ≠ 2 → smc_bytes_to_float data size ty = 0) := by
  refine ⟨?_,
    by norm_num [smc_bytes_to_float, FOURCC_SP78, FOURCC_FLT, toSigned16],
    by norm_num [smc_bytes_to_float, FOURCC_SP78, FOURCC_FLT, toSigned16],
    ?_, ?_, ?_, ?_, ?_, ?_⟩
  · intro f
    rw [show smc_bytes_to_float (natToBytesLE4 f.bits) 4 FOURCC_FLT
          = f32ToRat (leWord4 (natToBytesLE4 f.bits)) from by
        simp [smc_bytes_to_float],
      leWord4_natToBytesLE4 f.bits_lt, f32ToRat_bits]
  · intro data size hsize
    have h4 : ¬(FOURCC_SP78 = FOURCC_FLT ∧ 4 ≤ size) := by
      intro h; exact absurd h.1 (by decide)
    simp [smc_bytes_to_float, h4, hsize, show size ≠ 0 by omega]
  · intro data size hsize
    have h1 : ¬(FOURCC_IOFT = FOURCC_FLT ∧ 4 ≤ size) := by
      intro h; exact absurd h.1 (by decide)
    have h2 : ¬(FOURCC_IOFT = FOURCC_SP78 ∧ 2 ≤ size) := by
      intro h; exact absurd h.1 (by decide)
    simp [smc_bytes_to_float, h1, h2, hsize, show size ≠ 0 by omega]
  · intro data ty; simp [smc_bytes_to_float]
  · intro data ty
    simp [smc_bytes_to_float, show ¬(ty = FOURCC_FLT ∧ 4 ≤ 1) by omega,
      show ¬(ty = FOURCC_SP78 ∧ 2 ≤ 1) by omega,
      show ¬(ty = FOURCC_IOFT ∧ 8 ≤ 1) by omega]
  · intro data ty hty
    simp [smc_bytes_to_float, hty, show ¬(ty = FOURCC_FLT ∧ 4 ≤ 2) by omega,
      show ¬(ty = FOURCC_IOFT ∧ 8 ≤ 2) by omega]
  · intro data size ty hflt hsp hio h1 h2
    simp [smc_bytes_to_float, hflt, hsp, hio, h1, h2]

/-- Witness for C1: the round-trip at the concrete float 1/2 and the
catch-all rule at a concrete malformed input. -/
theorem C1_decoder_witness :
    smc_bytes_to_float (natToBytesLE4 fHalf.bits) 4 FOURCC_FLT = fHalf.val ∧
    smc_bytes_to_float [9, 9, 9] 3 FOURCC_FLT = 0 :=
  ⟨C1_decoder_spec.1 fHalf,
   C1_decoder_spec.2.2.2.2.2.2.2.2 [9, 9, 9] 3 FOURCC_FLT (by decide)
     (by decide) (by decide) (by decide) (by decide)⟩

/-! ## The aggregation loops compute filtered means (C2) -/

/-- The window predicate, in the Bool normal form used throughout. -/
def inWindow (lo hi t : ℚ) : Bool := decide (lo < t) && decide (t < hi)

theorem sum_count_window_eq (lo hi : ℚ) (ts : List ℚ) :
    sum_count_window lo hi ts =
      ((ts.filter (inWindow lo hi)).sum, (ts.filter (inWindow lo hi)).length) := by
  induction ts with
  | nil => rfl
  | cons t rest ih =>
    by_cases h : lo < t ∧ t < hi
    · simp [sum_count_window, List.filter_cons, inWindow, h.1, h.2, ih, add_comm]
    · have hw : inWindow lo hi t = false := by
        by_cases h1 : lo < t
        · have h2 : ¬ t < hi := fun h2 => h ⟨h1, h2⟩
          simp [inWindow, h1, h2]
        · simp [inWindow, h1]
      simp [sum_count_window, List.filter_cons, hw, ih, h]

theorem smc_domain_mean_eq (lo hi : ℚ) (ts : List ℚ) :
    smc_domain_mean lo hi ts =
      if (ts.filter (inWindow lo hi)) = [] then 0
      else (ts.filter (inWindow lo hi)).sum /
        ((ts.filter (inWindow lo hi)).length : ℚ) := by
  unfold smc_domain_mean
  rw [sum_count_window_eq]
  rcases eq_or_ne (ts.filter (inWindow lo hi)) [] with h | h
  · rw [if_pos h, h]
    simp
  · rw [if_neg h, if_pos (List.length_pos.mpr h)]

theorem smc_domain_mean_zero (lo hi : ℚ) (hlo : 0 ≤ lo) (ts : List ℚ)
    (h : ∀ t ∈ ts, t = 0) : smc_domain_mean lo hi ts = 0 := by
  rw [smc_domain_mean_eq]
  have hnil : ts.filter (inWindow lo hi) = [] := by
    rw [List.filter_eq_nil_iff]
    intro t ht
    rw [h t ht]
    simp [inWindow]
    intro hlt
    exact absurd (lt_of_le_of_lt hlo hlt) (lt_irrefl 0)
  simp [hnil]

theorem smc_read_temp_cached_no_conn (env : SMCEnv) (st : SMCState)
    (k : CachedSMCKey) (h : st.conn = false) :
    smc_read_temp_cached env st k = 0 := by
  simp [smc_read_temp_cached, h]

theorem map_cached_reads_zero (env : SMCEnv) (st : SMCState)
    (hc : st.conn = false) (ks : List CachedSMCKey) :
    ∀ t ∈ ks.map (smc_read_temp_cached env st), t = 0 := by
  intro t ht
  rcases List.mem_map.mp ht with ⟨k, _, rfl⟩
  exact smc_read_temp_cached_no_conn env st k hc

/-- C2: each domain aggregation reports the arithmetic mean of exactly the
readings strictly inside the plausibility window — (10, 130) for the CPU and
GPU domains of `smc_get_temperatures`, (10, 100) for the board domain — and 0
when no reading survives; readings {5, 45, 140} under the (10, 130) window
aggregate to 45. -/
theorem C2_aggregation_spec (lo hi : ℚ) (ts : List ℚ) (env : SMCEnv)
    (st : SMCState) (hinit : st.inited = true) :
    smc_domain_mean lo hi ts =
      (if ts.filter (inWindow lo hi) = [] then 0
       else (ts.filter (inWindow lo hi)).sum /
         ((ts.filter (inWindow lo hi)).length : ℚ)) ∧
    smc_domain_mean 10 130 [5, 45, 140] = 45 ∧
    (smc_get_temperatures env st).1 =
      (smc_domain_mean 10 130 (st.cpu_keys.map (smc_read_temp_cached env st)),
       smc_domain_mean 10 130 (st.gpu_keys.map (smc_read_temp_cached env st))) ∧
    (smc_get_board_temperature env st).1 =
      smc_domain_mean 10 100 (st.board_keys.map (smc_read_temp_cached env st)) := by
  refine ⟨smc_domain_mean_eq lo hi ts,
    by norm_num [smc_domain_mean, sum_count_window], ?_, ?_⟩
  · by_cases hc : st.conn = true
    · simp [smc_get_temperatures, hinit, hc]
    · have hc0 : st.conn = false := by simpa using hc
      have hcpu := smc_domain_mean_zero 10 130 (by norm_num) _
        (map_cached_reads_zero env st hc0 st.cpu_keys)
      have hgpu := smc_domain_mean_zero 10 130 (by norm_num) _
        (map_cached_reads_zero env st hc0 st.gpu_keys)
      simp [smc_get_temperatures, hinit, hc0, hcpu, hgpu]
  · by_cases hc : st.conn = true
    · by_cases hb : st.board_keys.length = 0
      · have hnil : st.board_keys = [] := List.length_eq_zero.mp hb
        simp [smc_get_board_temperature, hinit, hc, hnil,
          smc_domain_mean, sum_count_window]
      · simp [smc_get_board_temperature, hinit, hc, hb]
    · have hc0 : st.conn = false := by simpa using hc
      have hbrd := smc_domain_mean_zero 10 100 (by norm_num) _
        (map_cached_reads_zero env st hc0 st.board_keys)
      simp [smc_get_board_temperature, hinit, hc0, hbrd]

/-- Witness for C2: the worked {5, 45, 140} example and the aggregation shape
of `smc_get_temperatures` on a concrete initialised cache state. -/
theorem C2_aggregation_witness :
    smc_domain_mean 10 130 [5, 45, 140] = 45 ∧
    (smc_get_temperatures env6b stW).1 =
      (smc_domain_mean 10 130 (stW.cpu_keys.map (smc_read_temp_cached env6b stW)),
       smc_domain_mean 10 130 (stW.gpu_keys.map (smc_read_temp_cached env6b stW))) :=
  ⟨(C2_aggregation_spec 10 130 [5, 45, 140] env6b stW rfl).2.1,
   (C2_aggregation_spec 10 130 [5, 45, 140] env6b stW rfl).2.2.1⟩

/-- C7: the HID source is consulted exactly when the SMC yielded 0 for both
CPU and GPU in the same cycle.  When either SMC result is nonzero, both SMC
results are returned unchanged and the combined result does not depend on the
HID oracle at all. -/
theorem C7_fallback_spec (senv : SMCEnv) (h1 h2 : HidEnv) (st st' : SMCState)
    (c g : ℚ) (hsmc : smc_get_temperatures senv st = ((c, g), st')) :
    (¬(c = 0 ∧ g = 0) →
      get_apple_silicon_temps senv h1 st = ((c, g), st') ∧
      get_apple_silicon_temps senv h1 st = get_apple_silicon_temps senv h2 st) ∧
    ((c = 0 ∧ g = 0) →
      get_apple_silicon_temps senv h1 st = (hid_get_temperatures h1, st')) := by
  constructor
  · intro hne
    constructor <;> simp [get_apple_silicon_temps, hsmc, hne]
  · intro hz
    simp [get_apple_silicon_temps, hsmc, hz.1, hz.2]

/-- Witness for C7: on a concrete cache state where the SMC reports a nonzero
CPU temperature (50), the combined reading is the SMC pair and two different
HID oracles give the same result. -/
theorem C7_fallback_witness :
    get_apple_silicon_temps env6b hidA stW = ((50, 0), stW) ∧
    get_apple_silicon_temps env6b hidA stW =
      get_apple_silicon_temps env6b hidB stW :=
  (C7_fallback_spec env6b hidA hidB stW stW 50 0 (by
      norm_num [smc_get_temperatures, stW, env6b, smc_domain_mean,
        sum_count_window, smc_read_temp_cached, smc_bytes_to_float, toSigned16,
        FOURCC_FLT, FOURCC_SP78, FOURCC_IOFT])).1
    (by norm_num)

/-- C8: the key-cache probe step is idempotent — running `smc_init_cache`
twice (against the same oracle) produces exactly the state of running it
once; in particular the second run adds no duplicate cache entries and probes
no key again. -/
theorem C8_idempotent_spec (env : SMCEnv) (st : SMCState) :
    smc_init_cache env (smc_init_cache env st) = smc_init_cache env st := by
  by_cases h1 : st.inited
  · simp [smc_init_cache, h1]
  · by_cases h2 : st.conn
    · simp [smc_init_cache, smc_open, h1, h2]
    · by_cases h3 : env.open_ok
      · simp [smc_init_cache, smc_open, h1, h2, h3]
      · simp [smc_init_cache, smc_open, h1, h2, h3]

/-- Counterexample to C5 as stated: on the oracle `env5` the metadata probe
for "Tp01" reports 100 bytes (> 32), yet `smc_init_cache` admits the key into
the CPU domain cache, and `smc_read_temp_cached` then fetches and decodes its
value (to 1, not 0) — the cached path never applies the 32-byte cap. -/
theorem C5_bytelen_counterexample :
    ((smc_init_cache env5 st0).cpu_keys.map fun k => k.key_info.data_size) =
      [100] ∧
    smc_read_temp_cached env5 (smc_init_cache env5 st0)
      ⟨str_to_fourcc "Tp01", ⟨100, 0x73703738, 0⟩⟩ = 1 := by
  constructor
  · decide
  · have hconn : (smc_init_cache env5 st0).conn = true := by decide
    have hbytes : env5.keyBytes (str_to_fourcc "Tp01") = some [1, 0] := rfl
    norm_num [smc_read_temp_cached, hconn, hbytes, smc_bytes_to_float,
      toSigned16, FOURCC_FLT, FOURCC_SP78, FOURCC_IOFT]

/-- C5 amended: only the uncached read path (`smc_read_key`) enforces
`byteLength ≤ 32` — a key whose metadata reports more than 32 bytes yields 0
there without its value being fetched; the domain caches of `smc_init_cache`,
however, admit any key whose probe succeeds with `byteLength > 0` (the cap is
not checked), and `smc_read_temp_cached` fetches and decodes such a key. -/
theorem C5_bytelen_amended (env : SMCEnv) (st : SMCState) (key : String)
    (info : SMCKeyDataKeyInfo)
    (hinfo : env.keyInfo (str_to_fourcc key) = some info)
    (hbig : 32 < info.data_size) :
    smc_read_key env st key = 0 ∧
    (smc_init_cache env5 st0).cpu_keys =
      [⟨str_to_fourcc "Tp01", ⟨100, 0x73703738, 0⟩⟩] ∧
    smc_read_temp_cached env5 (smc_init_cache env5 st0)
      ⟨str_to_fourcc "Tp01", ⟨100, 0x73703738, 0⟩⟩ = 1 := by
  refine ⟨?_, by decide, ?_⟩
  · by_cases hc : st.conn = true
    · simp [smc_read_key, smc_read_key_info, hc, hinfo, hbig]
    · have hc0 : st.conn = false := by simpa using hc
      simp [smc_read_key, smc_read_key_info, hc0]
  · have hconn : (smc_init_cache env5 st0).conn = true := by decide
    have hbytes : env5.keyBytes (str_to_fourcc "Tp01") = some [1, 0] := rfl
    norm_num [smc_read_temp_cached, hconn, hbytes, smc_bytes_to_float,
      toSigned16, FOURCC_FLT, FOURCC_SP78, FOURCC_IOFT]

/-- Witness for C5 amended: the uncached rejection at the concrete oracle
`env5`, whose "Tp01" metadata reports 100 bytes. -/
theorem C5_bytelen_witness :
    smc_read_key env5 st0 "Tp01" = 0 :=
  (C5_bytelen_amended env5 st0 "Tp01" ⟨100, 0x73703738, 0⟩ (by decide)
    (by decide)).1

/-- A failing open leaves the SMC state exactly unchanged (the initialisation
flag is not set either — the basis of both the re-probe behaviour and the
degraded readings while the open keeps failing). -/
theorem smc_init_cache_fixed (env : SMCEnv) (st : SMCState)
    (ho : env.open_ok = false) (hc : st.conn = false) :
    smc_init_cache env st = st := by
  by_cases h1 : st.inited
  · simp [smc_init_cache, h1]
  · simp [smc_init_cache, smc_open, h1, hc, ho]

/-- Counterexample to C6 as stated: after a first cache initialisation whose
open fails (oracle `env6a`), a later `smc_init_cache` — as called by every
sampling cycle — attempts the open again, and against an oracle on which the
open now succeeds (`env6b`) it populates the CPU cache: the unavailability is
not permanent and the open is retried. -/
theorem C6_permanence_counterexample :
    smc_init_cache env6a st0 = st0 ∧
    (smc_init_cache env6b (smc_init_cache env6a st0)).cpu_keys ≠ [] := by
  constructor
  · decide
  · decide

/-- C6 amended: a failed open degrades everything for as long as the open
keeps failing — any number of initialisation attempts against a failing
oracle leave the state unchanged (caches empty), and all SMC temperatures
report 0 — but the open itself is re-attempted by each later call (only the
IOReport dynamic-library load is latched: once attempted with a NULL handle
it is never retried, and `ior_sample` then returns with all cached metrics
untouched forever). -/
theorem C6_permanence_amended :
    (∀ (env : SMCEnv) (st : SMCState) (n : ℕ), env.open_ok = false →
      st.conn = false → (fun s => smc_init_cache env s)^[n] st = st) ∧
    (∀ (env : SMCEnv) (st : SMCState), env.open_ok = false →
      st.conn = false →
      (smc_get_temperatures env st).1 = (0, 0) ∧
      (smc_get_board_temperature env st).1 = 0) ∧
    (∀ (env : IOREnv) (st : IORState), st.lib_loaded = true →
      st.handle = false → ior_load_framework env st = (false, st)) ∧
    (∀ (env : IOREnv) (g : GState), g.ior.inited = false →
      g.ior.lib_loaded = true → g.ior.handle = false →
      ior_sample env g = g) := by
  refine ⟨?_, ?_, ?_, ?_⟩
  · intro env st n ho hc
    exact Function.iterate_fixed (smc_init_cache_fixed env st ho hc) n
  · intro env st ho hc
    constructor
    · simp [smc_get_temperatures, smc_init_cache_fixed env st ho hc, hc]
    · simp [smc_get_board_temperature, smc_init_cache_fixed env st ho hc, hc]
  · intro env st hl hh
    simp [ior_load_framework, hl, hh]
  · intro env g hinit hl hh
    simp [ior_sample, ior_init, ior_load_framework, hinit, hl, hh]

/-- Witness for C6 amended: two failing initialisation attempts at the
concrete failing oracle leave the empty state unchanged, temperatures report
0, and `ior_sample` after a latched library-load failure is the identity. -/
theorem C6_permanence_witness :
    (fun s => smc_init_cache env6a s)^[2] st0 = st0 ∧
    (smc_get_temperatures env6a st0).1 = (0, 0) ∧
    ior_sample iorEnv0 { gstate0 with ior := iorStFailed } =
      { gstate0 with ior := iorStFailed } :=
  ⟨C6_permanence_amended.1 env6a st0 2 rfl rfl,
   (C6_permanence_amended.2.1 env6a st0 rfl rfl).1,
   C6_permanence_amended.2.2.2 iorEnv0 { gstate0 with ior := iorStFailed }
     rfl rfl rfl⟩

/-! ## The frequency residency calculator (C3) -/

theorem residency_scan_eq (freqs : List ℕ) (offset : ℕ)
    (states : List PerfState) :
    ∀ i : ℕ, residency_scan freqs offset i states =
      ((states.map PerfState.res).sum,
       ((states.drop (offset - i)).map PerfState.res).sum,
       (((states.drop (offset - i)).zip (freqs.drop (i - offset))).map
         (fun p => (p.1.res : ℚ) * (p.2 : ℚ))).sum) := by
  induction states with
  | nil => intro i; simp [residency_scan]
  | cons s rest ih =>
    intro i
    by_cases hle : offset ≤ i
    · have e1 : offset - i = 0 := by omega
      have e2 : offset - (i + 1) = 0 := by omega
      have e3 : i + 1 - offset = (i - offset) + 1 := by omega
      by_cases hfl : i - offset < freqs.length
      · have hdrop : freqs.drop (i - offset) =
            freqs[i - offset] :: freqs.drop (i - offset + 1) :=
          List.drop_eq_getElem_cons hfl
        have hgetD : freqs.getD (i - offset) 0 = freqs[i - offset] :=
          List.getD_eq_getElem freqs 0 hfl
        simp only [residency_scan, ih (i + 1), e1, e2, e3, hdrop, hgetD,
          if_pos hle, if_pos hfl, List.drop_zero, List.map_cons, List.sum_cons,
          List.zip_cons_cons]
        refine Prod.ext (by simp; ring)
          (Prod.ext (by simp; ring) (by simp; ring))
      · have hdrop : freqs.drop (i - offset) = [] := by
          rw [List.drop_eq_nil_iff]; omega
        have hdrop2 : freqs.drop (i + 1 - offset) = [] := by
          rw [List.drop_eq_nil_iff]; omega
        simp [residency_scan, hle, hfl, ih (i + 1), e1, e2, hdrop, hdrop2]
        ring
    · have e1 : offset - i = (offset - (i + 1)) + 1 := by omega
      have e2 : i - offset = 0 := by omega
      have e3 : i + 1 - offset = 0 := by omega
      simp [residency_scan, hle, ih (i + 1), e1, e2, e3, List.drop_succ_cons]
      ring

theorem int_sum_nonneg (l : List ℤ) (h : ∀ x ∈ l, 0 ≤ x) : 0 ≤ l.sum := by
  induction l with
  | nil => simp
  | cons x rest ih =>
    simp only [List.sum_cons]
    have hx := h x (List.mem_cons_self x rest)
    have hr := ih fun y hy => h y (List.mem_cons_of_mem x hy)
    omega

theorem int_sum_eq_zero (l : List ℤ) (h : ∀ x ∈ l, 0 ≤ x) (hz : l.sum = 0) :
    ∀ x ∈ l, x = 0 := by
  induction l with
  | nil => simp
  | cons x rest ih =>
    simp only [List.sum_cons] at hz
    have hx := h x (List.mem_cons_self x rest)
    have hr := int_sum_nonneg rest fun y hy => h y (List.mem_cons_of_mem x hy)
    intro y hy
    rcases List.mem_cons.mp hy with rfl | hy'
    · omega
    · exact ih (fun z hz' => h z (List.mem_cons_of_mem x hz')) (by omega) y hy'

/-- C3: with a non-empty table and a residency vector (nonnegative cumulative
tick counts), the calculator takes the active-state offset as the first state
named none of IDLE/OFF/DOWN, reports
freqMHz = (sum of residency[i] * table[i-offset] over i >= offset within
table bounds) / activeResidency and
loadPct = 100 * activeResidency / totalResidency, and reports 0 for both
whenever the total residency is 0 or the table is empty, never dividing by
zero; the worked example (table [100,200,300], residencies [10,5,10,15],
offset 1) gives frequency 7000/30 = 700/3 and load 75. -/
theorem C3_residency_spec (freqs : List ℕ) (states : List PerfState)
    (hpos : ∀ s ∈ states, 0 ≤ s.res) :
    calc_gpu_freq_from_residency [] states = (0, 0) ∧
    (freqs ≠ [] →
      calc_gpu_freq_from_residency freqs states =
        (if (states.map PerfState.res).sum = 0 then (0, 0)
         else
           ((((states.drop (activeOffset states)).zip freqs).map
               (fun p => (p.1.res : ℚ) * (p.2 : ℚ))).sum /
              ((((states.drop (activeOffset states)).map PerfState.res).sum : ℤ) : ℚ),
            ((((states.drop (activeOffset states)).map PerfState.res).sum : ℤ) : ℚ) /
              (((states.map PerfState.res).sum : ℤ) : ℚ) * 100))) ∧
    calc_gpu_freq_from_residency [100, 200, 300] resStates0 = (700 / 3, 75) := by
  refine ⟨by simp [calc_gpu_freq_from_residency], ?_, ?_⟩
  · intro hne
    have hlen : ¬ freqs.length = 0 := by
      intro h; exact hne (List.length_eq_zero.mp h)
    rcases eq_or_ne states [] with hst | hst
    · subst hst
      simp [calc_gpu_freq_from_residency, hlen]
    · have hslen : ¬ states.length = 0 := fun h => hst (List.length_eq_zero.mp h)
      have hscan := residency_scan_eq freqs (activeOffset states) states 0
      simp only [Nat.sub_zero, Nat.zero_sub, List.drop_zero] at hscan
      have hTnn : 0 ≤ (states.map PerfState.res).sum := by
        apply int_sum_nonneg
        intro x hx
        rcases List.mem_map.mp hx with ⟨s, hs, rfl⟩
        exact hpos s hs
      have hAnn : 0 ≤ ((states.drop (activeOffset states)).map PerfState.res).sum := by
        apply int_sum_nonneg
        intro x hx
        rcases List.mem_map.mp hx with ⟨s, hs, rfl⟩
        exact hpos s (List.mem_of_mem_drop hs)
      by_cases hT0 : (states.map PerfState.res).sum = 0
      · have hA0 : ((states.drop (activeOffset states)).map PerfState.res).sum = 0 := by
          apply List.sum_eq_zero
          intro x hx
          rcases List.mem_map.mp hx with ⟨s, hs, rfl⟩
          exact int_sum_eq_zero _ (fun y hy => by
              rcases List.mem_map.mp hy with ⟨t, ht, rfl⟩
              exact hpos t ht) hT0 _
            (List.mem_map.mpr ⟨s, List.mem_of_mem_drop hs, rfl⟩)
        have hcond : ¬(0 < ((states.drop (activeOffset states)).map PerfState.res).sum ∧
            0 < (states.map PerfState.res).sum) := by
          rw [hA0]; exact fun h => lt_irrefl 0 h.1
        simp only [calc_gpu_freq_from_residency, hscan]
        rw [if_neg hlen, if_neg hslen, if_neg hcond, if_pos hT0]
      · have hTpos : 0 < (states.map PerfState.res).sum :=
          lt_of_le_of_ne hTnn (Ne.symm hT0)
        by_cases hApos : 0 < ((states.drop (activeOffset states)).map PerfState.res).sum
        · have hcond : 0 < ((states.drop (activeOffset states)).map PerfState.res).sum ∧
              0 < (states.map PerfState.res).sum := ⟨hApos, hTpos⟩
          simp only [calc_gpu_freq_from_residency, hscan]
          rw [if_neg hlen, if_neg hslen, if_pos hcond, if_neg hT0]
        · have hA0 : ((states.drop (activeOffset states)).map PerfState.res).sum = 0 :=
            le_antisymm (not_lt.mp hApos) hAnn
          have hW0 : (((states.drop (activeOffset states)).zip freqs).map
              (fun p => (p.1.res : ℚ) * (p.2 : ℚ))).sum = 0 := by
            apply List.sum_eq_zero
            intro x hx
            rcases List.mem_map.mp hx with ⟨p, hp, rfl⟩
            have hs : p.1 ∈ states.drop (activeOffset states) :=
              (List.of_mem_zip hp).1
            have hz : p.1.res = 0 :=
              int_sum_eq_zero _ (fun y hy => by
                  rcases List.mem_map.mp hy with ⟨t, ht, rfl⟩
                  exact hpos t (List.mem_of_mem_drop ht)) hA0 _
                (List.mem_map.mpr ⟨p.1, hs, rfl⟩)
            rw [hz]; simp
          have hcond : ¬(0 < ((states.drop (activeOffset states)).map PerfState.res).sum ∧
              0 < (states.map PerfState.res).sum) := by
            rw [hA0]; exact fun h => lt_irrefl 0 h.1
          simp only [calc_gpu_freq_from_residency, hscan]
          rw [if_neg hlen, if_neg hslen, if_neg hcond, if_neg hT0, hA0, hW0]
          norm_num
  · have h1 : activeOffset resStates0 = 1 := by decide
    have h2 : residency_scan [100, 200, 300] 1 0 resStates0 = (40, 30, 7000) := by
      norm_num [residency_scan, resStates0]
    norm_num [calc_gpu_freq_from_residency, h1, h2,
      show resStates0.length = 4 from by decide]

/-- Witness for C3: the worked example instantiated through the theorem, its
nonnegativity hypothesis discharged by computation. -/
theorem C3_residency_witness :
    calc_gpu_freq_from_residency [100, 200, 300] resStates0 = (700 / 3, 75) :=
  (C3_residency_spec [100, 200, 300] resStates0 (by decide)).2.2

/-- Counterexample to C4 as stated: with temperature reporting disabled
(`use_native_temps = 0`, as in `gstate0`), `collect_stats` still sets
`cpu.tempMax` to 100 — the claim that every temperature field remains zero is
false (so are `gpu.tempMax`, `tjMax` and `core1DistanceToTjMax`, and
`board.temp` is read from the SMC regardless of the flag). -/
theorem C4_gate_counterexample :
    gstate0.use_native_temps = false ∧
    (collect_stats cenv0 gstate0).1.cpu.tempMax ≠ 0 := by
  constructor
  · rfl
  · have h : (collect_stats cenv0 gstate0).1.cpu.tempMax = 100 := rfl
    rw [h]
    norm_num

/-- C4 amended: with temperature reporting disabled and the cached sampler
values at zero, `collect_stats` leaves the sampled fields zero — `cpu.temp`,
`cpu.core1Temp`, `gpu.temp`, `cpu.consume`, `gpu.consume`, `gpu.freq`,
`gpu.load` — but the constant fields are set to 100 (`cpu.tempMax`,
`gpu.tempMax`, `cpu.tjMax`, and hence `cpu.core1DistanceToTjMax` = 100 − 0),
and `board.temp` is still the fresh SMC board reading taken regardless of the
flag. -/
theorem C4_gate_amended (env : CollectEnv) (g : GState)
    (hflag : g.use_native_temps = false)
    (hct : g.cached_cpu_temp = 0) (hgt : g.cached_gpu_temp = 0)
    (hp : g.power = ⟨0, 0, 0, 0⟩) :
    (collect_stats env g).1.cpu.temp = 0 ∧
    (collect_stats env g).1.cpu.core1Temp = 0 ∧
    (collect_stats env g).1.gpu.temp = 0 ∧
    (collect_stats env g).1.cpu.consume = 0 ∧
    (collect_stats env g).1.gpu.consume = 0 ∧
    (collect_stats env g).1.gpu.freq = 0 ∧
    (collect_stats env g).1.gpu.load = 0 ∧
    (collect_stats env g).1.cpu.tempMax = 100 ∧
    (collect_stats env g).1.gpu.tempMax = 100 ∧
    (collect_stats env g).1.cpu.tjMax = 100 ∧
    (collect_stats env g).1.cpu.core1DistanceToTjMax = 100 ∧
    (collect_stats env g).1.board.temp =
      (smc_get_board_temperature env.smc (get_fan_info env.smc g.smc).2).1 := by
  simp [collect_stats, hflag, hct, hgt, hp]

/-- Witness for C4 amended: the disabled-temperatures cycle at the concrete
all-unavailable environment and the zeroed initial state. -/
theorem C4_gate_witness :
    (collect_stats cenv0 gstate0).1.cpu.temp = 0 ∧
    (collect_stats cenv0 gstate0).1.cpu.core1Temp = 0 ∧
    (collect_stats cenv0 gstate0).1.gpu.temp = 0 ∧
    (collect_stats cenv0 gstate0).1.cpu.consume = 0 ∧
    (collect_stats cenv0 gstate0).1.gpu.consume = 0 ∧
    (collect_stats cenv0 gstate0).1.gpu.freq = 0 ∧
    (collect_stats cenv0 gstate0).1.gpu.load = 0 ∧
    (collect_stats cenv0 gstate0).1.cpu.tempMax = 100 ∧
    (collect_stats cenv0 gstate0).1.gpu.tempMax = 100 ∧
    (collect_stats cenv0 gstate0).1.cpu.tjMax = 100 ∧
    (collect_stats cenv0 gstate0).1.cpu.core1DistanceToTjMax = 100 ∧
    (collect_stats cenv0 gstate0).1.board.temp =
      (smc_get_board_temperature cenv0.smc
        (get_fan_info cenv0.smc gstate0.smc).2).1 :=
  C4_gate_amended cenv0 gstate0 rfl rfl rfl rfl

/-- C9: the snapshot timestamp is not the host-local wall-clock value (UTC
seconds plus UTC offset); `collect_stats` subtracts one further hour:
`time_stamp = now + gmtoff - 3600` always, so at UTC time 0 with offset 0 the
emitted timestamp is -3600 where the claim (and the source comment "send
local time as if it were UTC") demand 0. -/
theorem C9_timestamp_eval :
    (∀ (env : CollectEnv) (g : GState),
      (collect_stats env g).1.time_stamp = env.now + env.gmtoff - 3600) ∧
    (collect_stats cenv0 gstate0).1.time_stamp = -3600 ∧
    cenv0.now + cenv0.gmtoff = 0 := by
  refine ⟨?_, by norm_num [collect_stats, cenv0], by norm_num [cenv0]⟩
  intro env g
  simp [collect_stats]

/-- C10: the serialised snapshot text always contains the literal pair
"cmd":1230, and the text is entirely independent of the status's `cmd`
field — two statuses differing only in `cmd` serialise identically. -/
theorem C10_json_cmd_spec (s : PcStatus) :
    (∃ a b : String, build_json s = a ++ ("\"cmd\":1230," ++ b)) ∧
    (∀ c : ℤ, build_json { s with cmd := c } = build_json s) :=
  ⟨⟨json_head s, "\"time\":" ++ (toString s.time_stamp ++ "\x7d"), rfl⟩,
   fun _ => rfl⟩

end PcStats
